import Mathlib

/-!
Verification of the registration-api core: activation-code lifecycle,
password hashing wrapper, credential verification and code generation.

The Python source is shallowly embedded: each repository method becomes a
pure function over an explicit `DBState`, `CURRENT_TIMESTAMP` becomes an
explicit `now : Nat` argument, raised business exceptions become an
`Except` result, and the secure random source / bcrypt salt become
explicit arguments.
-/

/-- Model of the bcrypt salt produced by `bcrypt.gensalt(rounds)`:
a cost factor plus the random salt value embedded in the output. -/
structure BcryptSalt where
  cost : Nat
  value : Nat
deriving DecidableEq

/-- Model of the data a bcrypt hash string encodes: the cost, the salt,
and a digest.  The external `bcrypt` primitive is modelled ideally
(collision-free): the digest is determined by the salt and by the first
72 bytes of the password, matching bcrypt's documented 72-byte input
limit. -/
structure BcryptHashData where
  cost : Nat
  saltValue : Nat
  digest : List Nat
deriving DecidableEq

/-- Model of `bcrypt.hashpw(password_bytes, salt)`: bcrypt only consumes
the first 72 bytes of its input. -/
def bcrypt_hashpw (passwordBytes : List Nat) (salt : BcryptSalt) : BcryptHashData :=
  { cost := salt.cost, saltValue := salt.value, digest := passwordBytes.take 72 }

/-- Model of `bcrypt.checkpw(password_bytes, hashed)`: re-derive the hash
with the cost and salt embedded in `hashed` and compare digests. -/
def bcrypt_checkpw (passwordBytes : List Nat) (hashed : BcryptHashData) : Bool :=
  (bcrypt_hashpw passwordBytes ⟨hashed.cost, hashed.saltValue⟩).digest == hashed.digest

/-- `PasswordHandler.hash_password` (src/app/core/security.py, lines 38-59):
encode to bytes, truncate explicitly to 72 bytes when longer, then hash.
Plaintexts are represented by their UTF-8 byte lists. -/
def hash_password (passwordBytes : List Nat) (salt : BcryptSalt) : BcryptHashData :=
  let pb := if passwordBytes.length > 72 then passwordBytes.take 72 else passwordBytes
  bcrypt_hashpw pb salt

/-- `PasswordHandler.verify_password` (src/app/core/security.py, lines 61-74):
delegate to `bcrypt.checkpw` on the raw plaintext bytes. -/
def verify_password (plainBytes : List Nat) (hashed : BcryptHashData) : Bool :=
  bcrypt_checkpw plainBytes hashed

/-- The alphabet `string.ascii_uppercase + string.digits` used by
`generate_activation_code` (src/app/core/security.py, line 96). -/
def codeAlphabet : List Char :=
  ("ABCDEFGHIJKLMNOPQRSTUVWXYZ0123456789" : String).data

theorem codeAlphabet_length : codeAlphabet.length = 36 := rfl

/-- `generate_activation_code` (src/app/core/security.py, lines 86-99):
one character per position, each drawn from `codeAlphabet` by the secure
random source, modelled as an explicit stream `rand` of indices. -/
def generate_activation_code (rand : Nat → Fin 36) (length : Nat) : String :=
  String.mk ((List.range length).map fun i =>
    codeAlphabet.get ⟨(rand i).val, lt_of_lt_of_eq (rand i).isLt codeAlphabet_length.symm⟩)

/-- `Settings` (src/app/core/config.py): the configuration fields the
claims refer to, with their declared defaults. -/
structure Settings where
  bcrypt_rounds : Nat := 12
  activation_code_ttl_seconds : Nat := 60

/-- The module-level `settings = Settings()` instance. -/
def settings : Settings := {}

/-- Row of the `users` table (`UserInDB`, src/app/models/user.py). -/
structure UserInDB where
  id : Nat
  email : String
  password_hash : BcryptHashData
  is_active : Bool
  created_at : Nat
  updated_at : Nat
deriving DecidableEq

/-- Row of the `activation_codes` table (`ActivationCodeInDB`,
src/app/models/activation.py). -/
structure ActivationCodeInDB where
  id : Nat
  user_id : Nat
  code : String
  expires_at : Nat
  used_at : Option Nat
  created_at : Nat
deriving DecidableEq

/-- `ActivationCodeCreate` (src/app/models/activation.py). -/
structure ActivationCodeCreate where
  user_id : Nat
  code : String
  expires_at : Nat
deriving DecidableEq

/-- The durable state held by the external stores: the `users` and
`activation_codes` tables, as lists in insertion order. -/
structure DBState where
  users : List UserInDB
  codes : List ActivationCodeInDB
deriving DecidableEq

/-- Business exceptions raised by `ActivationService.activate_user`
(src/app/core/exceptions.py).  The spec refers to the same three as
`AccountNotFoundError`, `AlreadyActiveError`, `InvalidOrExpiredCodeError`. -/
inductive ActError where
  | userNotFound
  | userAlreadyActive
  | invalidActivationCode
deriving DecidableEq

/-- Business exception raised by `UserService.create_user`. -/
inductive UserSvcError where
  | userAlreadyExists
deriving DecidableEq

/-- `SELECT * FROM users WHERE id = $1` via `fetchrow`: first matching row. -/
def UserRepository.get_by_id (s : DBState) (uid : Nat) : Option UserInDB :=
  s.users.find? fun u => u.id == uid

/-- `SELECT * FROM users WHERE email = $1` via `fetchrow`. -/
def UserRepository.get_by_email (s : DBState) (email : String) : Option UserInDB :=
  s.users.find? fun u => u.email == email

/-- `UserRepository.create` (src/app/db/repositories/user_repository.py,
lines 8-16): hash the password and INSERT.  Modelled from the spec: the
`users` table schema is not under src/; per the spec's data model the
`id` is assigned at creation, the active flag defaults to false, and the
creation/last-modified timestamps default to the current time. -/
def UserRepository.create (s : DBState) (email : String) (passwordBytes : List Nat)
    (salt : BcryptSalt) (newId now : Nat) : DBState × UserInDB :=
  let u : UserInDB :=
    { id := newId, email := email,
      password_hash := hash_password passwordBytes salt,
      is_active := false, created_at := now, updated_at := now }
  ({ s with users := s.users ++ [u] }, u)

/-- `UPDATE users SET is_active = TRUE, updated_at = CURRENT_TIMESTAMP
WHERE id = $1` (src/app/db/repositories/user_repository.py, lines 28-30). -/
def UserRepository.activate_user (s : DBState) (now uid : Nat) : DBState :=
  { s with users := s.users.map fun u =>
      if u.id == uid then { u with is_active := true, updated_at := now } else u }

/-- `UserRepository.update_password` (src/app/db/repositories/user_repository.py,
lines 32-35). -/
def UserRepository.update_password (s : DBState) (now uid : Nat)
    (passwordBytes : List Nat) (salt : BcryptSalt) : DBState :=
  { s with users := s.users.map fun u =>
      if u.id == uid then
        { u with password_hash := hash_password passwordBytes salt, updated_at := now }
      else u }

/-- One comparison step of the `ORDER BY created_at DESC LIMIT 1`
selection: keep the row seen so far unless the next row was created
strictly later. -/
def latestStep (acc : Option ActivationCodeInDB) (c : ActivationCodeInDB) :
    Option ActivationCodeInDB :=
  match acc with
  | none => some c
  | some b => if c.created_at > b.created_at then some c else some b

/-- `ORDER BY created_at DESC LIMIT 1` over the filtered rows: keep the
row with the greatest `created_at` (first such row on ties). -/
def latestCreatedFirst (l : List ActivationCodeInDB) : Option ActivationCodeInDB :=
  l.foldl latestStep none

/-- `ActivationRepository.get_valid_code`
(src/app/db/repositories/activation_repository.py, lines 22-33):
`WHERE user_id = $1 AND code = $2 AND used_at IS NULL AND
expires_at > CURRENT_TIMESTAMP ORDER BY created_at DESC LIMIT 1`. -/
def ActivationRepository.get_valid_code (s : DBState) (now uid : Nat)
    (code : String) : Option ActivationCodeInDB :=
  latestCreatedFirst (s.codes.filter fun c =>
    c.user_id == uid && c.code == code && c.used_at.isNone && decide (now < c.expires_at))

/-- `ActivationRepository.mark_as_used`
(src/app/db/repositories/activation_repository.py, lines 35-37):
`UPDATE activation_codes SET used_at = CURRENT_TIMESTAMP WHERE id = $1` —
note there is no `used_at IS NULL` condition. -/
def ActivationRepository.mark_as_used (s : DBState) (now codeId : Nat) : DBState :=
  { s with codes := s.codes.map fun c =>
      if c.id == codeId then { c with used_at := some now } else c }

/-- `ActivationRepository.invalidate_old_codes`
(src/app/db/repositories/activation_repository.py, lines 39-46):
`UPDATE activation_codes SET used_at = CURRENT_TIMESTAMP WHERE
user_id = $1 AND used_at IS NULL`. -/
def ActivationRepository.invalidate_old_codes (s : DBState) (now uid : Nat) : DBState :=
  { s with codes := s.codes.map fun c =>
      if c.user_id == uid && c.used_at.isNone then { c with used_at := some now } else c }

/-- `ActivationRepository.create`
(src/app/db/repositories/activation_repository.py, lines 8-20): INSERT
returning the full row.  Modelled from the spec: the table schema is not
under src/; per the spec's data model the `id` is assigned at creation,
the used timestamp defaults to null and the creation timestamp to now. -/
def ActivationRepository.create (s : DBState) (data : ActivationCodeCreate)
    (newId now : Nat) : DBState × ActivationCodeInDB :=
  let c : ActivationCodeInDB :=
    { id := newId, user_id := data.user_id, code := data.code,
      expires_at := data.expires_at, used_at := none, created_at := now }
  ({ s with codes := s.codes ++ [c] }, c)

/-- `ActivationService.create_activation_code`
(src/app/services/activation_service.py, lines 23-54): generate a
6-character code, set `expires_at = datetime.utcnow() + timedelta(hours=1)`
(3600 seconds, hard-coded), build an `ActivationCodeCreate` and persist it.
No invalidation of previous codes is performed. -/
def ActivationService.create_activation_code (s : DBState) (now newId uid : Nat)
    (rand : Nat → Fin 36) : DBState × ActivationCodeInDB :=
  let code := generate_activation_code rand 6
  let expires_at := now + 3600
  let activation_data : ActivationCodeCreate :=
    { user_id := uid, code := code, expires_at := expires_at }
  ActivationRepository.create s activation_data newId now

/-- `ActivationService.activate_user`
(src/app/services/activation_service.py, lines 56-78): look up the user,
reject if absent or already active, look up a valid code, reject if none,
then mark the code used and mark the user active.  The returned state is
the store state when the call finishes (unchanged on every raise, since
every raise precedes the first write). -/
def ActivationService.activate_user (s : DBState) (now uid : Nat)
    (code : String) : DBState × Except ActError Bool :=
  match UserRepository.get_by_id s uid with
  | none => (s, Except.error ActError.userNotFound)
  | some user =>
    if user.is_active then (s, Except.error ActError.userAlreadyActive)
    else
      match ActivationRepository.get_valid_code s now uid code with
      | none => (s, Except.error ActError.invalidActivationCode)
      | some valid_code =>
        let s1 := ActivationRepository.mark_as_used s now valid_code.id
        let s2 := UserRepository.activate_user s1 now uid
        (s2, Except.ok true)

/-- `UserService.create_user` (src/app/services/user_service.py,
lines 15-33): reject a duplicate email, otherwise create the user. -/
def UserService.create_user (s : DBState) (email : String) (passwordBytes : List Nat)
    (salt : BcryptSalt) (newId now : Nat) : DBState × Except UserSvcError UserInDB :=
  match UserRepository.get_by_email s email with
  | some _ => (s, Except.error UserSvcError.userAlreadyExists)
  | none =>
    let r := UserRepository.create s email passwordBytes salt newId now
    (r.1, Except.ok r.2)

/-- `UserService.verify_credentials` (src/app/services/user_service.py,
lines 59-69): look up by email, return None if absent; return None if
the password does not verify; otherwise return the user. -/
def UserService.verify_credentials (s : DBState) (email : String)
    (passwordBytes : List Nat) : Option UserInDB :=
  match UserRepository.get_by_email s email with
  | none => none
  | some user =>
    if verify_password passwordBytes user.password_hash then some user else none

/-- Spec-side matching condition for `redeem` step 3 (spec.md §4.3):
code value equals the submitted code AND the used timestamp is null AND
the expiry timestamp is strictly after now, for this account. -/
def specMatches (now uid : Nat) (code : String) (c : ActivationCodeInDB) : Bool :=
  decide (c.code = code ∧ c.user_id = uid ∧ c.used_at = none ∧ now < c.expires_at)

/-- Spec-side tie-break rule for `redeem` step 4 (spec.md §4.3): select
the most recently created matching row. -/
def mostRecentCreated : List ActivationCodeInDB → Option ActivationCodeInDB
  | [] => none
  | c :: rest =>
    match mostRecentCreated rest with
    | none => some c
    | some b => if b.created_at > c.created_at then some b else some c

/-- Spec-side `ActivationStore.findValid` (spec.md §6): valid = unused AND
unexpired for this account and code, most recent first. -/
def specFindValid (s : DBState) (now uid : Nat) (code : String) :
    Option ActivationCodeInDB :=
  mostRecentCreated (s.codes.filter (specMatches now uid code))

/-- Spec-side `redeem(accountId, submittedCode)` (spec.md §4.3), written
from the spec's numbered steps: (1) look up the account, absent fails with
`AccountNotFoundError`; (2) already active fails with `AlreadyActiveError`;
(3)-(4) look up the most recent valid matching code, none fails with
`InvalidOrExpiredCodeError`; (5) mark the code used; (6) mark the account
active; return success.  Spec error names map to the source's exception
type (`AccountNotFoundError` = `userNotFound`, `AlreadyActiveError` =
`userAlreadyActive`, `InvalidOrExpiredCodeError` =
`invalidActivationCode`). -/
def redeemSpec (s : DBState) (now uid : Nat) (code : String) :
    DBState × Except ActError Bool :=
  match UserRepository.get_by_id s uid with
  | none => (s, Except.error ActError.userNotFound)
  | some account =>
    if account.is_active then (s, Except.error ActError.userAlreadyActive)
    else
      match specFindValid s now uid code with
      | none => (s, Except.error ActError.invalidActivationCode)
      | some matched =>
        let afterMark := ActivationRepository.mark_as_used s now matched.id
        let afterActivate := UserRepository.activate_user afterMark now uid
        (afterActivate, Except.ok true)

/-- Decidable equality for `Except`, needed to evaluate concrete
interleaving outcomes. -/
def exceptDecEq {ε α : Type} [DecidableEq ε] [DecidableEq α] :
    DecidableEq (Except ε α)
  | Except.error e, Except.error f =>
    if h : e = f then isTrue (by rw [h]) else isFalse (by intro hc; cases hc; exact h rfl)
  | Except.error _, Except.ok _ => isFalse (by intro hc; cases hc)
  | Except.ok _, Except.error _ => isFalse (by intro hc; cases hc)
  | Except.ok a, Except.ok b =>
    if h : a = b then isTrue (by rw [h]) else isFalse (by intro hc; cases hc; exact h rfl)

instance {ε α : Type} [DecidableEq ε] [DecidableEq α] : DecidableEq (Except ε α) :=
  exceptDecEq

/-- Program counter of one in-flight `activate_user` call: each store
access of the source (lines 59, 68, 73, 76 of
src/app/services/activation_service.py) is one atomic step; local
variables already read are carried in the constructor. -/
inductive RedeemPC where
  | lookupUser
  | lookupCode
  | markCode (c : ActivationCodeInDB)
  | setActive
  | done (r : Except ActError Bool)
deriving DecidableEq

/-- One atomic step of an in-flight `activate_user` call against the
shared store state. -/
def redeemStep (now uid : Nat) (code : String) :
    DBState × RedeemPC → DBState × RedeemPC
  | (s, RedeemPC.lookupUser) =>
    match UserRepository.get_by_id s uid with
    | none => (s, RedeemPC.done (Except.error ActError.userNotFound))
    | some user =>
      if user.is_active then (s, RedeemPC.done (Except.error ActError.userAlreadyActive))
      else (s, RedeemPC.lookupCode)
  | (s, RedeemPC.lookupCode) =>
    match ActivationRepository.get_valid_code s now uid code with
    | none => (s, RedeemPC.done (Except.error ActError.invalidActivationCode))
    | some valid_code => (s, RedeemPC.markCode valid_code)
  | (s, RedeemPC.markCode c) =>
    (ActivationRepository.mark_as_used s now c.id, RedeemPC.setActive)
  | (s, RedeemPC.setActive) =>
    (UserRepository.activate_user s now uid, RedeemPC.done (Except.ok true))
  | (s, RedeemPC.done r) => (s, RedeemPC.done r)

/-- Shared store plus the program counters of two concurrent
`activate_user` calls for the same account and submitted code. -/
structure TwoRedeem where
  db : DBState
  t1 : RedeemPC
  t2 : RedeemPC
deriving DecidableEq

/-- Run one step of thread 1 (`true`) or thread 2 (`false`). -/
def twoStep (now uid : Nat) (code : String) (st : TwoRedeem) (which : Bool) :
    TwoRedeem :=
  if which then
    let r := redeemStep now uid code (st.db, st.t1)
    { db := r.1, t1 := r.2, t2 := st.t2 }
  else
    let r := redeemStep now uid code (st.db, st.t2)
    { db := r.1, t1 := st.t1, t2 := r.2 }

/-- Run an interleaving schedule of the two concurrent calls. -/
def runSchedule (now uid : Nat) (code : String) (sched : List Bool)
    (st : TwoRedeem) : TwoRedeem :=
  sched.foldl (twoStep now uid code) st

/-- The operations of the core that touch the stores (spec.md §2): user
creation, password update, code issue, code redemption.  Used to state
store-level invariants quantified over every core operation. -/
inductive CoreOp where
  | createUser (email : String) (passwordBytes : List Nat) (salt : BcryptSalt)
      (newId now : Nat)
  | updatePassword (now uid : Nat) (passwordBytes : List Nat) (salt : BcryptSalt)
  | issue (now newId uid : Nat) (rand : Nat → Fin 36)
  | redeem (now uid : Nat) (code : String)

/-- The store state an operation of the core leaves behind. -/
def applyOp (s : DBState) : CoreOp → DBState
  | CoreOp.createUser email pw salt newId now =>
    (UserService.create_user s email pw salt newId now).1
  | CoreOp.updatePassword now uid pw salt =>
    UserRepository.update_password s now uid pw salt
  | CoreOp.issue now newId uid rand =>
    (ActivationService.create_activation_code s now newId uid rand).1
  | CoreOp.redeem now uid code =>
    (ActivationService.activate_user s now uid code).1

/-- Look up an activation-code row by primary key (used to observe a
single row of the store in concrete scenarios). -/
def findCode (s : DBState) (codeId : Nat) : Option ActivationCodeInDB :=
  s.codes.find? fun c => c.id == codeId

/-- A fixed salt for concrete scenarios. -/
def demoSalt : BcryptSalt := { cost := 12, value := 7 }

/-- Random stream that always draws index 0, so a 6-character code is
"AAAAAA". -/
def randA : Nat → Fin 36 := fun _ => 0

/-- Random stream that always draws index 1, so a 6-character code is
"BBBBBB". -/
def randB : Nat → Fin 36 := fun _ => 1

/-- A registered, not yet active account. -/
def userDemo : UserInDB :=
  { id := 1, email := "u@example.com", password_hash := hash_password [1, 2] demoSalt,
    is_active := false, created_at := 0, updated_at := 0 }

/-- A pending activation code for `userDemo`, expiring at t = 100. -/
def codeDemo : ActivationCodeInDB :=
  { id := 10, user_id := 1, code := "ABC123", expires_at := 100,
    used_at := none, created_at := 0 }

/-- Store holding `userDemo` and its pending `codeDemo`. -/
def dbDemo : DBState := { users := [userDemo], codes := [codeDemo] }

/-- Store holding `userDemo` with no codes. -/
def dbNoCodes : DBState := { users := [userDemo], codes := [] }

/-- Store holding an already-used code (used at t = 5) for `userDemo`. -/
def dbUsed : DBState :=
  { users := [userDemo], codes := [{ codeDemo with used_at := some 5 }] }

/-- C1: the spec requires that when two concurrent redeem calls submit the
same valid code, exactly one succeeds and the other fails with
`InvalidOrExpiredCodeError`.  The code violates this: with one inactive
account and one valid code, the interleaving in which both calls perform
their user lookup and valid-code lookup before either writes ends with
BOTH calls returning success, because `mark_as_used` is an unconditional
UPDATE and the service never re-checks the code after writing. -/
theorem concurrent_redeem_both_succeed :
    (runSchedule 50 1 "ABC123" [true, false, true, false, true, true, false, false]
      { db := dbDemo, t1 := RedeemPC.lookupUser, t2 := RedeemPC.lookupUser }).t1
        = RedeemPC.done (Except.ok true) ∧
    (runSchedule 50 1 "ABC123" [true, false, true, false, true, true, false, false]
      { db := dbDemo, t1 := RedeemPC.lookupUser, t2 := RedeemPC.lookupUser }).t2
        = RedeemPC.done (Except.ok true) ∧
    ActivationRepository.get_valid_code dbDemo 50 1 "ABC123" = some codeDemo := by
  refine ⟨?_, ?_, ?_⟩ <;> decide

/-- C2: the spec requires `markUsed` to be conditional — a no-op or a
failure when the used timestamp is already non-null, never overwriting it.
The code violates this: applied at t = 10 to a code already used at t = 5,
`mark_as_used` overwrites the used timestamp with 10. -/
theorem mark_as_used_overwrites_used_timestamp :
    findCode dbUsed 10 = some { codeDemo with used_at := some 5 } ∧
    findCode (ActivationRepository.mark_as_used dbUsed 10 10) 10
      = some { codeDemo with used_at := some 10 } := by
  refine ⟨?_, ?_⟩ <;> decide

/-- C3: the spec requires `issue` to mark every currently-unused code of
the account as used before persisting the fresh one, so that after two
issues the first code can no longer be redeemed.  The code violates this:
`create_activation_code` never calls `invalidate_old_codes`, so after
issuing "AAAAAA" (t = 0) and then "BBBBBB" (t = 1) for the same account,
the first code is still unused and redeeming it at t = 2 succeeds instead
of failing with `InvalidActivationCodeError`. -/
theorem second_issue_leaves_first_code_redeemable :
    (findCode
      (ActivationService.create_activation_code
        (ActivationService.create_activation_code dbNoCodes 0 10 1 randA).1
        1 11 1 randB).1 10).map (fun c => c.used_at) = some none ∧
    (ActivationService.activate_user
      (ActivationService.create_activation_code
        (ActivationService.create_activation_code dbNoCodes 0 10 1 randA).1
        1 11 1 randB).1
      2 1 "AAAAAA").2 = Except.ok true := by
  refine ⟨?_, ?_⟩ <;> decide

/-- C7 counterexample: the claim says the expiry of a newly created code
equals now + the configured TTL.  With the declared configuration default
(`activation_code_ttl_seconds = 60`), issuing at t = 0 produces a code
expiring at 3600, not at 0 + 60: the service hard-codes one hour and never
reads the setting. -/
theorem expires_at_ignores_configured_ttl :
    (ActivationService.create_activation_code dbNoCodes 0 10 1 randA).2.expires_at
      ≠ 0 + settings.activation_code_ttl_seconds := by
  decide

/-- C7 amended: for every issue call, the expiry timestamp of the newly
created activation code equals the current time plus a hard-coded
3600 seconds (one hour); the configured `activation_code_ttl_seconds` is
not consumed. -/
theorem expires_at_hard_coded_one_hour :
    ∀ (s : DBState) (now newId uid : Nat) (rand : Nat → Fin 36),
      (ActivationService.create_activation_code s now newId uid rand).2.expires_at
        = now + 3600 := by
  intro s now newId uid rand
  rfl

/-- C9: `generate_activation_code` returns a string of exactly `length`
characters, each drawn from the 36-symbol alphabet of uppercase letters
and digits, and length 0 yields the empty string. -/
theorem generate_code_length_and_alphabet :
    ∀ (rand : Nat → Fin 36) (n : Nat),
      (generate_activation_code rand n).length = n ∧
      (∀ c, c ∈ (generate_activation_code rand n).data → c ∈ codeAlphabet) ∧
      generate_activation_code rand 0 = "" := by
  intro rand n
  refine ⟨?_, ?_, rfl⟩
  · simp [generate_activation_code, String.length]
  · intro c hc
    simp only [generate_activation_code] at hc
    obtain ⟨i, _, hi⟩ := List.mem_map.mp hc
    exact hi ▸ List.get_mem _ _ _

/-- Witness for C9 at concrete inputs. -/
theorem generate_code_length_and_alphabet_witness :
    (generate_activation_code randA 6).length = 6 ∧ 'A' ∈ codeAlphabet :=
  ⟨(generate_code_length_and_alphabet randA 6).1,
   (generate_code_length_and_alphabet randA 1).2.1 'A' (by decide)⟩

/-- C5: round-trip of the password primitive: for plaintexts of at most
72 bytes, verifying the plaintext against its own hash returns true; and
for any plaintext, verifying the 72-byte truncated prefix against the
stored hash returns true, since `hash_password` truncates to 72 bytes
before hashing and bcrypt itself only consumes the first 72 bytes. -/
theorem hash_verify_roundtrip :
    ∀ (pw : List Nat) (salt : BcryptSalt),
      (pw.length ≤ 72 → verify_password pw (hash_password pw salt) = true) ∧
      verify_password (pw.take 72) (hash_password pw salt) = true := by
  intro pw salt
  constructor
  · intro h
    have h72 : ¬ pw.length > 72 := by omega
    simp [verify_password, bcrypt_checkpw, bcrypt_hashpw, hash_password, h72]
  · by_cases h72 : pw.length > 72 <;>
      simp [verify_password, bcrypt_checkpw, bcrypt_hashpw, hash_password, h72,
        List.take_take]

/-- Witness for C5 at a concrete short plaintext. -/
theorem hash_verify_roundtrip_witness :
    verify_password [1, 2, 3] (hash_password [1, 2, 3] demoSalt) = true ∧
    verify_password (List.take 72 [9]) (hash_password [9] demoSalt) = true :=
  ⟨(hash_verify_roundtrip [1, 2, 3] demoSalt).1 (by decide),
   (hash_verify_roundtrip [9] demoSalt).2⟩

/-- C10: whenever `activate_user` raises one of its three business
errors, the store state is unchanged — every raise precedes the first
write. -/
theorem activate_user_error_preserves_state :
    ∀ (s : DBState) (now uid : Nat) (code : String) (e : ActError),
      (ActivationService.activate_user s now uid code).2 = Except.error e →
      (ActivationService.activate_user s now uid code).1 = s := by
  intro s now uid code e h
  unfold ActivationService.activate_user at h ⊢
  cases h1 : UserRepository.get_by_id s uid with
  | none => simp [h1]
  | some u =>
    by_cases ha : u.is_active
    · simp [ha]
    · cases h2 : ActivationRepository.get_valid_code s now uid code with
      | none => simp [ha, h2]
      | some c => simp [h1, ha, h2] at h

/-- Witness for C10: an unknown account id leaves the store unchanged. -/
theorem activate_user_error_preserves_state_witness :
    (ActivationService.activate_user dbNoCodes 0 2 "ABC123").1 = dbNoCodes :=
  activate_user_error_preserves_state dbNoCodes 0 2 "ABC123"
    ActError.userNotFound (by decide)

/-- C8: `verify_credentials` returns the account exactly when it exists
and the password verifies, and returns the very same absent value (None)
both when no account bears the email and when the password fails, never
distinguishing the two failure causes. -/
theorem verify_credentials_no_enumeration :
    ∀ (s : DBState) (email : String) (pw : List Nat),
      (∀ u, UserService.verify_credentials s email pw = some u ↔
        (UserRepository.get_by_email s email = some u ∧
         verify_password pw u.password_hash = true)) ∧
      (UserRepository.get_by_email s email = none →
        UserService.verify_credentials s email pw = none) ∧
      (∀ u, UserRepository.get_by_email s email = some u →
        verify_password pw u.password_hash = false →
        UserService.verify_credentials s email pw = none) := by
  intro s email pw
  unfold UserService.verify_credentials
  cases h : UserRepository.get_by_email s email with
  | none => simp
  | some v =>
    refine ⟨?_, ?_, ?_⟩
    · intro u
      by_cases hv : verify_password pw v.password_hash
      · simp only [hv, if_true]
        constructor
        · rintro hvu; cases hvu; exact ⟨rfl, hv⟩
        · rintro ⟨h1, _⟩; cases h1; rfl
      · simp only [hv, if_false, Bool.false_eq_true]
        constructor
        · rintro hc; cases hc
        · rintro ⟨h1, h2⟩; cases h1; exact absurd h2 hv
    · rintro hc; cases hc
    · intro u hu hf
      cases hu
      simp [hf]

/-- Witness for C8: absent email and wrong password both yield None, and
the correct password yields the account. -/
theorem verify_credentials_no_enumeration_witness :
    UserService.verify_credentials dbNoCodes "nobody@example.com" [1, 2] = none ∧
    UserService.verify_credentials dbNoCodes "u@example.com" [3] = none ∧
    UserService.verify_credentials dbNoCodes "u@example.com" [1, 2] = some userDemo :=
  ⟨(verify_credentials_no_enumeration dbNoCodes "nobody@example.com" [1, 2]).2.1
     (by decide),
   (verify_credentials_no_enumeration dbNoCodes "u@example.com" [3]).2.2 userDemo
     (by decide) (by decide),
   ((verify_credentials_no_enumeration dbNoCodes "u@example.com" [1, 2]).1 userDemo).mpr
     ⟨by decide, by decide⟩⟩

/-- The row `pickLatest b o` that the DESC-order selection keeps after
comparing the best row so far `b` with the best of the remaining rows. -/
def pickLatest (b : ActivationCodeInDB) (o : Option ActivationCodeInDB) :
    ActivationCodeInDB :=
  match o with
  | none => b
  | some m => if m.created_at > b.created_at then m else b

theorem foldl_latestStep (l : List ActivationCodeInDB) :
    ∀ b, l.foldl latestStep (some b) = some (pickLatest b (mostRecentCreated l)) := by
  induction l with
  | nil => intro b; rfl
  | cons c l ih =>
    intro b
    rw [List.foldl_cons]
    have hstep : latestStep (some b) c
        = some (if c.created_at > b.created_at then c else b) := by
      by_cases h : c.created_at > b.created_at <;> simp [latestStep, h]
    rw [hstep, ih]
    cases hm : mostRecentCreated l with
    | none => simp [mostRecentCreated, hm, pickLatest]
    | some m =>
      simp only [mostRecentCreated, hm]
      by_cases hmc : m.created_at > c.created_at <;>
        by_cases hcb : c.created_at > b.created_at <;>
          simp [pickLatest, hmc, hcb] <;>
            (try split_ifs) <;>
              first | rfl | (exfalso; omega) | (intro _; exfalso; omega)

theorem latestCreatedFirst_eq_mostRecentCreated (l : List ActivationCodeInDB) :
    latestCreatedFirst l = mostRecentCreated l := by
  cases l with
  | nil => rfl
  | cons c l =>
    show List.foldl latestStep (latestStep none c) l = _
    rw [show latestStep none c = some c from rfl, foldl_latestStep]
    cases hm : mostRecentCreated l with
    | none => simp [mostRecentCreated, hm, pickLatest]
    | some m =>
      simp only [mostRecentCreated, hm, pickLatest]
      split_ifs <;> rfl

theorem valid_filter_pred_eq (now uid : Nat) (code : String)
    (c : ActivationCodeInDB) :
    (c.user_id == uid && c.code == code && c.used_at.isNone
        && decide (now < c.expires_at))
      = specMatches now uid code c := by
  rw [Bool.eq_iff_iff]
  simp only [specMatches, Bool.and_eq_true, beq_iff_eq, Option.isNone_iff_eq_none,
    decide_eq_true_eq]
  tauto

theorem get_valid_code_eq_specFindValid (s : DBState) (now uid : Nat)
    (code : String) :
    ActivationRepository.get_valid_code s now uid code
      = specFindValid s now uid code := by
  unfold ActivationRepository.get_valid_code specFindValid
  rw [latestCreatedFirst_eq_mostRecentCreated]
  exact congrArg _ (List.filter_congr fun c _ => valid_filter_pred_eq now uid code c)

theorem find?_append_left {α : Type} (p : α → Bool) {l1 : List α} (l2 : List α)
    {a : α} (h : l1.find? p = some a) : (l1 ++ l2).find? p = some a := by
  rw [List.find?_append, h]; rfl

theorem find?_map_of_pred_comm {α : Type} (p : α → Bool) (f : α → α)
    (hf : ∀ a, p (f a) = p a) :
    ∀ l : List α, (l.map f).find? p = (l.find? p).map f := by
  intro l
  induction l with
  | nil => rfl
  | cons x l ih =>
    rw [List.map_cons]
    by_cases hx : p x = true
    · rw [List.find?_cons_of_pos _ (by rw [hf]; exact hx), List.find?_cons_of_pos _ hx]
      rfl
    · rw [List.find?_cons_of_neg _ (by rw [hf]; exact hx), List.find?_cons_of_neg _ hx]
      exact ih

theorem get_by_id_activate_user (s : DBState) (now uidT uid : Nat) :
    UserRepository.get_by_id (UserRepository.activate_user s now uidT) uid
      = (UserRepository.get_by_id s uid).map fun u =>
          if u.id == uidT then { u with is_active := true, updated_at := now }
          else u := by
  unfold UserRepository.get_by_id UserRepository.activate_user
  exact find?_map_of_pred_comm _ _
    (fun a => by by_cases h : a.id == uidT <;> simp [h]) _

theorem get_by_id_update_password (s : DBState) (now uidT uid : Nat)
    (pw : List Nat) (salt : BcryptSalt) :
    UserRepository.get_by_id (UserRepository.update_password s now uidT pw salt) uid
      = (UserRepository.get_by_id s uid).map fun u =>
          if u.id == uidT then
            { u with password_hash := hash_password pw salt, updated_at := now }
          else u := by
  unfold UserRepository.get_by_id UserRepository.update_password
  exact find?_map_of_pred_comm _ _
    (fun a => by by_cases h : a.id == uidT <;> simp [h]) _

theorem get_by_id_mark_as_used (s : DBState) (now cid uid : Nat) :
    UserRepository.get_by_id (ActivationRepository.mark_as_used s now cid) uid
      = UserRepository.get_by_id s uid := rfl

/-- Case analysis of `activate_user`: either it leaves the store unchanged,
or it found a valid code, marked it used and marked the account active. -/
theorem activate_user_cases (s : DBState) (now uid : Nat) (code : String) :
    (ActivationService.activate_user s now uid code).1 = s ∨
    ∃ c, ActivationRepository.get_valid_code s now uid code = some c ∧
      ActivationService.activate_user s now uid code
        = (UserRepository.activate_user
            (ActivationRepository.mark_as_used s now c.id) now uid,
           Except.ok true) := by
  unfold ActivationService.activate_user
  cases h1 : UserRepository.get_by_id s uid with
  | none => exact Or.inl rfl
  | some u =>
    by_cases ha : u.is_active
    · simp [ha]
    · cases h2 : ActivationRepository.get_valid_code s now uid code with
      | none => simp [ha]
      | some c =>
        refine Or.inr ⟨c, rfl, ?_⟩
        simp [ha]

/-- Any core operation either leaves an account's active flag as it was,
or sets it to true, the latter only when the operation is a successful
redemption for that very account. -/
theorem applyOp_active (s : DBState) (op : CoreOp) (uid : Nat) (u u' : UserInDB)
    (hu : UserRepository.get_by_id s uid = some u)
    (hu' : UserRepository.get_by_id (applyOp s op) uid = some u') :
    u'.is_active = u.is_active ∨
      (u'.is_active = true ∧ ∃ now code s2, op = CoreOp.redeem now uid code ∧
        ActivationService.activate_user s now uid code = (s2, Except.ok true)) := by
  cases op with
  | createUser email pw salt newId now =>
    left
    simp only [applyOp, UserService.create_user] at hu'
    cases he : UserRepository.get_by_email s email with
    | some v =>
      rw [he] at hu'
      have hs : UserRepository.get_by_id s uid = some u' := hu'
      rw [hu] at hs
      cases hs
      rfl
    | none =>
      rw [he] at hu'
      have hs : (s.users ++
          [({ id := newId, email := email,
              password_hash := hash_password pw salt,
              is_active := false, created_at := now,
              updated_at := now } : UserInDB)]).find?
            (fun v => v.id == uid) = some u' := hu'
      rw [find?_append_left _ _ hu] at hs
      cases hs
      rfl
  | updatePassword now uidT pw salt =>
    left
    simp only [applyOp] at hu'
    rw [get_by_id_update_password, hu] at hu'
    simp only [Option.map_some'] at hu'
    cases hu'
    by_cases h : u.id == uidT <;> simp [h]
  | issue now newId uidT rand =>
    left
    have hs : UserRepository.get_by_id s uid = some u' := hu'
    rw [hu] at hs
    cases hs
    rfl
  | redeem now uidT code =>
    simp only [applyOp] at hu'
    rcases activate_user_cases s now uidT code with hcase | ⟨c, _, heq⟩
    · left
      rw [hcase, hu] at hu'
      cases hu'
      rfl
    · rw [heq] at hu'
      have hs : UserRepository.get_by_id
          (UserRepository.activate_user
            (ActivationRepository.mark_as_used s now c.id) now uidT) uid
            = some u' := hu'
      rw [get_by_id_activate_user, get_by_id_mark_as_used, hu] at hs
      simp only [Option.map_some'] at hs
      by_cases h : u.id == uidT
      · have h1 : u.id = uid := by simpa using (List.find?_some hu)
        have h2 : u.id = uidT := by simpa using h
        have huid : uidT = uid := by omega
        subst huid
        right
        rw [h, if_pos rfl] at hs
        cases hs
        exact ⟨rfl, now, code, _, rfl, heq⟩
      · left
        rw [if_neg h] at hs
        cases hs
        rfl

/-- C6: an account's active flag is monotonic.  A created account starts
inactive; no core operation (user creation, password update, code issue
or redemption) ever turns the flag from true back to false; and it turns
from false to true only through a successful redemption for that very
account. -/
theorem active_flag_monotonic :
    (∀ (s : DBState) (email : String) (pw : List Nat) (salt : BcryptSalt)
        (newId now : Nat) (u : UserInDB),
        (UserService.create_user s email pw salt newId now).2 = Except.ok u →
        u.is_active = false) ∧
    (∀ (s : DBState) (op : CoreOp) (uid : Nat) (u u' : UserInDB),
        UserRepository.get_by_id s uid = some u → u.is_active = true →
        UserRepository.get_by_id (applyOp s op) uid = some u' →
        u'.is_active = true) ∧
    (∀ (s : DBState) (op : CoreOp) (uid : Nat) (u u' : UserInDB),
        UserRepository.get_by_id s uid = some u → u.is_active = false →
        UserRepository.get_by_id (applyOp s op) uid = some u' →
        u'.is_active = true →
        ∃ now code s2, op = CoreOp.redeem now uid code ∧
          ActivationService.activate_user s now uid code = (s2, Except.ok true)) := by
  refine ⟨?_, ?_, ?_⟩
  · intro s email pw salt newId now u h
    unfold UserService.create_user at h
    cases he : UserRepository.get_by_email s email with
    | some v => rw [he] at h; cases h
    | none =>
      rw [he] at h
      cases h
      rfl
  · intro s op uid u u' hu hact hu'
    rcases applyOp_active s op uid u u' hu hu' with hsame | ⟨htrue, _⟩
    · rw [hsame, hact]
    · exact htrue
  · intro s op uid u u' hu hact hu' hact'
    rcases applyOp_active s op uid u u' hu hu' with hsame | ⟨_, hex⟩
    · rw [hact'] at hsame; rw [hact] at hsame; cases hsame
    · exact hex

/-- Witness for C6: a fresh account is created inactive; an active
account stays active across a password update; an inactive account
becomes active exactly through the successful demo redemption. -/
theorem active_flag_monotonic_witness :
    ({ id := 3, email := "w@example.com",
       password_hash := hash_password [7] demoSalt,
       is_active := false, created_at := 4, updated_at := 4 } : UserInDB).is_active
        = false ∧
    ({ userDemo with
        password_hash := hash_password [9] demoSalt,
        updated_at := 8, is_active := true } : UserInDB).is_active = true ∧
    ∃ now code s2, CoreOp.redeem 50 1 "ABC123" = CoreOp.redeem now 1 code ∧
      ActivationService.activate_user dbDemo now 1 code = (s2, Except.ok true) :=
  ⟨active_flag_monotonic.1 dbNoCodes "w@example.com" [7] demoSalt 3 4 _ (by decide),
   active_flag_monotonic.2.1
     { users := [{ userDemo with is_active := true }], codes := [] }
     (CoreOp.updatePassword 8 1 [9] demoSalt) 1
     { userDemo with is_active := true } _ (by decide) (by decide) (by decide),
   active_flag_monotonic.2.2 dbDemo (CoreOp.redeem 50 1 "ABC123") 1
     userDemo { userDemo with is_active := true, updated_at := 50 }
     (by decide) (by decide) (by decide) (by decide)⟩

/-- C4: `activate_user` coincides, on every store state, time, account id
and submitted code, with the spec's `redeem` sequence: absent account
fails with `AccountNotFoundError`; an already-active account fails with
`AlreadyActiveError`; no matching unused, unexpired code (most recently
created first) fails with `InvalidOrExpiredCodeError`; otherwise the code
is marked used and then the account is marked active. -/
theorem activate_user_refines_spec_redeem :
    ∀ (s : DBState) (now uid : Nat) (code : String),
      ActivationService.activate_user s now uid code = redeemSpec s now uid code := by
  intro s now uid code
  unfold ActivationService.activate_user redeemSpec
  rw [get_valid_code_eq_specFindValid]
